import Mathlib

/-!
# GTA raster container codec: shallow embedding

The repository material is the test suite of a raster-format driver ("GTA")
inside a geospatial library; the driver implementation itself is not among the
provided sources (only its test file `autotest/gdrivers/gta.py` is).  Following
the specification, every definition of the codec below is therefore modelled
from the specification text (§2–§7 of the spec), which was written from the
behaviors the tests assert.  The raster adapter is modelled at the adapter
level, as the spec's design notes direct ("prefer an indexed array of records
over a generic nested dictionary at the adapter layer").
-/

/-- Modelled from the spec: the supported pixel data types (§8 round-trip
list); the driver implementation is missing from the sources. -/
inductive DataType
  | int8 | int16 | int32
  | uint8 | uint16 | uint32
  | float32 | float64
  | cint16 | cint32
  | cfloat32 | cfloat64
deriving DecidableEq, Inhabited

/-- Modelled from the spec: affine geotransform, 6 coefficients mapping
pixel/line to georeferenced coordinates (§3 GeoReference).  Coefficients are
modelled as exact rationals. -/
structure GeoTransform where
  gt0 : Rat
  gt1 : Rat
  gt2 : Rat
  gt3 : Rat
  gt4 : Rat
  gt5 : Rat
deriving DecidableEq, Inhabited

/-- Modelled from the spec: the default identity transform (0,1,0,0,0,1)
applying when no affine transform is set (§3). -/
def identityGT : GeoTransform := ⟨0, 1, 0, 0, 0, 1⟩

/-- The 6 components of a geotransform as a list, for indexed access. -/
def GeoTransform.components (g : GeoTransform) : List Rat :=
  [g.gt0, g.gt1, g.gt2, g.gt3, g.gt4, g.gt5]

/-- Modelled from the spec: a ground control point (pixel, line, X, Y, Z, id,
info) (§3 GeoReference). -/
structure GCP where
  pixel : Rat
  line : Rat
  x : Rat
  y : Rat
  z : Rat
  gcpId : String
  info : String
deriving DecidableEq, Inhabited

/-- Modelled from the spec: per-band descriptor — nodata, cached min/max
statistics, category names, scale, offset, unit, description and
color-interpretation enum value (§3 RasterBandDescriptor).  The
color-interpretation enum is modelled by its numeric value (0–16). -/
structure BandMeta where
  nodata : Option Rat
  minimum : Option Rat
  maximum : Option Rat
  categoryNames : List String
  offset : Rat
  scale : Rat
  unitType : String
  description : String
  colorInterp : Nat
deriving DecidableEq, Inhabited

/-- The palette-index color-interpretation value, the one case excluded from
band-metadata round-trip (it would require an accompanying color table). -/
def GCI_PaletteIndex : Nat := 2

/-- One raster band: its descriptor plus its pixel data in row-major order.
Pixel values are modelled as integers (the checksum the tests compare is an
integer digest of the pixel values). -/
structure Band where
  meta : BandMeta
  data : List Int
deriving DecidableEq, Inhabited

/-- Modelled from the spec: the generic dataset abstraction the driver
consumes and produces (§6) — raster dimensions, pixel type, bands, and the
georeferencing properties (affine transform when set, projection text, GCP
list, GCP projection text). -/
structure Dataset where
  width : Nat
  height : Nat
  dtype : DataType
  bands : List Band
  geotransform : Option GeoTransform
  projection : String
  gcps : List GCP
  gcpProjection : String
deriving DecidableEq, Inhabited

/-- Pixel data of band `i` (0-based), empty when out of range. -/
def Dataset.bandAt (d : Dataset) (i : Nat) : List Int :=
  (d.bands.map Band.data).getD i []

/-- The geotransform a dataset reports: the stored one, or the default
identity transform when none is set (§3, §4.4 Open protocol). -/
def Dataset.reportedGT (d : Dataset) : GeoTransform :=
  d.geotransform.getD identityGT

/-- Modelled from the spec: compression algorithm spec attached at write time
(§3 CompressionSpec, §4.2): byte-identity passthrough (`NONE`), BZIP2, XZ, or
ZLIB with a level 1–9. -/
inductive Compression
  | raw
  | bzip2
  | xz
  | zlib (level : Nat)
deriving DecidableEq, Inhabited

/-- Modelled from the spec: the error taxonomy (§7). -/
inductive GtaError
  | notAContainer
  | corruptData
  | unsupportedCompression
  | fixedShapeViolation
  | ioFailure
  | notFound
deriving DecidableEq, Inhabited

/-- Modelled from the spec: the authoritative georeference record written to
the container's global scope (§4.4 step 3): either an affine transform with
projection text, or a GCP list with its projection text, or the default. -/
inductive GeoRef
  | affine (gt : GeoTransform) (projection : String)
  | gcpList (gcps : List GCP) (gcpProjection : String)
  | default
deriving DecidableEq, Inhabited

/-- Modelled from the spec: the on-disk array container (§3 ArrayContainer):
header plus tag dictionary fully describing shape, type, compression and
georeference, one component per band (§4.4), with per-band descriptor records
(§3, design note: indexed array of records).  Pixel data is stored losslessly:
the spec's codecs are lossless byte-stream compressors whose decompression
restores the written bytes exactly (§4.2), so storage is modelled by the
identity on pixel data, tagged with the compression spec. -/
structure Container where
  dtype : DataType
  width : Nat
  height : Nat
  compression : Compression
  georef : GeoRef
  bandMeta : List BandMeta
  bandData : List (List Int)
deriving DecidableEq, Inhabited

/-- Modelled from the spec: the filesystem abstraction (§6): container files
addressed by path (association list from path to committed container). -/
abbrev FS := List (String × Container)

/-- Look up the container file at a path. -/
def FS.lookup (fs : FS) (p : String) : Option Container :=
  (fs.find? (fun e => e.1 == p)).map Prod.snd

/-- Remove any file at a path. -/
def FS.erase (fs : FS) (p : String) : FS :=
  fs.filter (fun e => e.1 != p)

/-- Commit a container file at a path, replacing any previous file there. -/
def FS.set (fs : FS) (p : String) (c : Container) : FS :=
  (p, c) :: FS.erase fs p

/-- Modelled from the spec: recognition of `COMPRESS` creation-option values
(§6 configuration surface): `NONE | ZLIB[1-9] | BZIP2 | XZ`, bare `ZLIB`
implying a default level (level 6 is the model's default); an unrecognized
value fails with `UnsupportedCompression`. -/
def parseCompression (s : String) : Except GtaError Compression :=
  if s = "NONE" then .ok .raw
  else if s = "BZIP2" then .ok .bzip2
  else if s = "XZ" then .ok .xz
  else if s = "ZLIB" then .ok (.zlib 6)
  else if s = "ZLIB1" then .ok (.zlib 1)
  else if s = "ZLIB2" then .ok (.zlib 2)
  else if s = "ZLIB3" then .ok (.zlib 3)
  else if s = "ZLIB4" then .ok (.zlib 4)
  else if s = "ZLIB5" then .ok (.zlib 5)
  else if s = "ZLIB6" then .ok (.zlib 6)
  else if s = "ZLIB7" then .ok (.zlib 7)
  else if s = "ZLIB8" then .ok (.zlib 8)
  else if s = "ZLIB9" then .ok (.zlib 9)
  else .error .unsupportedCompression

/-- The accepted `COMPRESS` values, as the test's compress list enumerates
them. -/
def acceptedCompressValues : List String :=
  ["NONE", "BZIP2", "XZ", "ZLIB", "ZLIB1", "ZLIB2", "ZLIB3", "ZLIB4",
   "ZLIB5", "ZLIB6", "ZLIB7", "ZLIB8", "ZLIB9"]

/-- The value of the `COMPRESS=...` entry of a creation-option list, if any. -/
def compressOptionValue (opts : List String) : Option String :=
  match opts.find? (fun o => o.take 9 == "COMPRESS=") with
  | some o => some (o.drop 9)
  | none => none

/-- Modelled from the spec: creation-option handling — `COMPRESS` is the single
recognized option (§6); absence means no compression (`NONE`). -/
def parseOptions (opts : List String) : Except GtaError Compression :=
  match compressOptionValue opts with
  | none => .ok .raw
  | some v => parseCompression v

/-- Modelled from the spec: CreateCopy step 3 (§4.4): the georeference record
written to the global scope — the source's affine transform and projection
text when an affine transform is set, else the source's GCP list and GCP
projection text when GCPs are present, else the default. -/
def buildGeoRef (src : Dataset) : GeoRef :=
  match src.geotransform with
  | some gt => .affine gt src.projection
  | none => if src.gcps.isEmpty then .default else .gcpList src.gcps src.gcpProjection

/-- Modelled from the spec: CreateCopy steps 2–5 (§4.4): a destination
container sized by the source with the source pixel type and the requested
compression, a per-band descriptor sub-record for each source band, and the
pixel data streamed verbatim from the source. -/
def buildContainer (src : Dataset) (comp : Compression) : Container :=
  { dtype := src.dtype
    width := src.width
    height := src.height
    compression := comp
    georef := buildGeoRef src
    bandMeta := src.bands.map Band.meta
    bandData := src.bands.map Band.data }

/-- Modelled from the spec: Open protocol (§4.4): reconstruct band descriptors
from the per-band records, and the georeference from the global scope, falling
back to no affine transform and empty projection when the record holds GCPs or
nothing. -/
def containerToDataset (c : Container) : Dataset :=
  { width := c.width
    height := c.height
    dtype := c.dtype
    bands := List.zipWith Band.mk c.bandMeta c.bandData
    geotransform := match c.georef with | .affine gt _ => some gt | _ => none
    projection := match c.georef with | .affine _ p => p | _ => ""
    gcps := match c.georef with | .gcpList g _ => g | _ => []
    gcpProjection := match c.georef with | .gcpList _ p => p | _ => "" }

/-- Modelled from the spec: the driver-level `CreateCopy` (§4.4, §6, §7).  On
an unrecognized `COMPRESS` value the operation fails with
`UnsupportedCompression`, and per §7's "either no file" commitment a failed
`CreateCopy` leaves no file at the target path; on success the container built
from the source is committed at the path, replacing any previous file there. -/
def createCopy (fs : FS) (path : String) (src : Dataset) (opts : List String) :
    FS × Except GtaError Container :=
  match parseOptions opts with
  | .error e => (FS.erase fs path, .error e)
  | .ok comp =>
    let c := buildContainer src comp
    (FS.set fs path c, .ok c)

/-- Modelled from the spec: the driver-level `Open` for reading (§4.4, §6):
a missing file is a not-found failure; an existing committed container is
decoded by the Open protocol. -/
def openDS (fs : FS) (path : String) : Except GtaError Dataset :=
  match fs.lookup path with
  | none => .error .notFound
  | some c => .ok (containerToDataset c)

/-- Modelled from the spec: the driver-level `Delete` (§4.4 deletion):
removes the backing container file entirely; a missing file is reported as a
failure, not silently swallowed. -/
def deleteDS (fs : FS) (path : String) : Except GtaError FS :=
  match fs.lookup path with
  | none => .error .notFound
  | some _ => .ok (fs.erase path)

/-- Modelled from the spec: the container after `Fill(band, value)` through
the update-in-place path (§4.3, §4.4): every cell of the band's component is
overwritten with the constant; the tag dictionary and all other components
are untouched. -/
def fillContainer (c : Container) (band : Nat) (value : Int) : Container :=
  { c with bandData :=
      c.bandData.set band (List.replicate (c.width * c.height) value) }

/-- Modelled from the spec: `Fill(band, value)` on a read-write handle; the
whole open-update/fill/close session is modelled as one filesystem
transformation. -/
def fillAt (fs : FS) (path : String) (band : Nat) (value : Int) :
    Except GtaError FS :=
  match fs.lookup path with
  | none => .error .notFound
  | some c => .ok (fs.set path (fillContainer c band value))

/-- Modelled from the spec: one band's pixel array after a sub-window
`WriteRaster` through the update-in-place path (§4.3): cells inside the
window take the corresponding buffer value, cells outside keep their stored
value; the component's extent never changes. -/
def writeWindow (width : Nat) (data : List Int)
    (xoff yoff xsize ysize : Nat) (buf : List Int) : List Int :=
  (List.range data.length).map (fun i =>
    if xoff ≤ i % width ∧ i % width < xoff + xsize ∧
        yoff ≤ i / width ∧ i / width < yoff + ysize then
      buf.getD ((i / width - yoff) * xsize + (i % width - xoff)) 0
    else
      data.getD i 0)

/-- Modelled from the spec: the container after a windowed `WriteRaster` on
one band through the update-in-place path (§4.3): only the targeted component
block is overwritten; the tag dictionary (georeference and band descriptors)
and all other components are untouched. -/
def writeContainer (c : Container) (band xoff yoff xsize ysize : Nat)
    (buf : List Int) : Container :=
  let newBand := writeWindow c.width (c.bandData.getD band []) xoff yoff xsize ysize buf
  { c with bandData := c.bandData.set band newBand }

/-- Modelled from the spec: `WriteRaster` of a window of one band on a
read-write handle (§4.3, §4.4), as one open-update/write/close session. -/
def writeRasterAt (fs : FS) (path : String) (band : Nat)
    (xoff yoff xsize ysize : Nat) (buf : List Int) : Except GtaError FS :=
  match fs.lookup path with
  | none => .error .notFound
  | some c => .ok (fs.set path (writeContainer c band xoff yoff xsize ysize buf))

/-- Modelled from the spec: the per-band checksum the tests compare.  The
digest algorithm itself is not part of the provided material; it is modelled
as a deterministic modular sum of the pixel magnitudes, which has the
properties the spec relies on: equal pixel data has equal checksums, and an
all-zero band has checksum 0. -/
def checksum (data : List Int) : Nat :=
  (data.foldl (fun acc v => acc + v.natAbs) 0) % 65536

/-! ## Concrete sample data, used to witness the theorems -/

/-- A concrete band descriptor matching the metadata test's source band. -/
def sampleMeta : BandMeta :=
  { nodata := some 123
    minimum := some 255
    maximum := some 255
    categoryNames := ["a", "b"]
    offset := 2
    scale := 3
    unitType := "custom"
    description := "description"
    colorInterp := 3 }

/-- A concrete affine geotransform (the one of the `byte.tif` source). -/
def sampleGT : GeoTransform := ⟨440720, 60, 0, 3751320, 0, -60⟩

/-- A concrete 2×2 single-band source dataset with an affine transform and a
projection text. -/
def sampleDS : Dataset :=
  { width := 2
    height := 2
    dtype := .uint8
    bands := [⟨sampleMeta, [5, 6, 7, 8]⟩]
    geotransform := some sampleGT
    projection := "WGS84"
    gcps := []
    gcpProjection := "" }

/-- A concrete source dataset described purely by ground control points. -/
def gcpDS : Dataset :=
  { width := 2
    height := 2
    dtype := .uint8
    bands := [⟨sampleMeta, [5, 6, 7, 8]⟩]
    geotransform := none
    projection := ""
    gcps := [⟨0, 0, 440720, 3751320, 0, "1", ""⟩,
             ⟨2, 0, 440840, 3751320, 0, "2", ""⟩]
    gcpProjection := "GCPWKT" }

/-- The container obtained by copying the sample dataset without
compression. -/
def sampleContainer : Container := buildContainer sampleDS .raw

/-- The sample container after filling band 0 with value 0. -/
def filledSampleContainer : Container := fillContainer sampleContainer 0 0

/-- The filled sample container after a full-band `WriteRaster` of
`[1, 2, 3, 4]` on band 0. -/
def rewrittenSampleContainer : Container :=
  writeContainer filledSampleContainer 0 0 0 2 2 [1, 2, 3, 4]

/-- The sample container after a 1×1-window `WriteRaster` of `[9]` at the
origin of band 0. -/
def windowedSampleContainer : Container :=
  writeContainer sampleContainer 0 0 0 1 1 [9]

/-! ## Helper lemmas about the codec model -/

theorem FS.lookup_erase_self (fs : FS) (p : String) :
    FS.lookup (FS.erase fs p) p = none := by
  simp [FS.erase, FS.lookup, List.find?_eq_none]

theorem FS.lookup_set_self (fs : FS) (p : String) (c : Container) :
    FS.lookup (FS.set fs p c) p = some c := by
  simp [FS.lookup, FS.set, List.find?]

theorem zipWith_mk_meta_data (bs : List Band) :
    List.zipWith Band.mk (bs.map Band.meta) (bs.map Band.data) = bs := by
  induction bs with
  | nil => rfl
  | cons b t ih => simp [List.zipWith, ih]

/-- Opening the container written by `CreateCopy` reconstructs the source's
bands — descriptors and pixel data — exactly. -/
theorem bands_roundtrip (src : Dataset) (comp : Compression) :
    (containerToDataset (buildContainer src comp)).bands = src.bands := by
  simp [containerToDataset, buildContainer, zipWith_mk_meta_data]

/-- `CreateCopy` then `Open` at the same path succeeds and yields exactly the
decoding of the container built from the source. -/
theorem open_createCopy (fs : FS) (path : String) (src : Dataset)
    (opts : List String) (comp : Compression)
    (h : parseOptions opts = .ok comp) :
    openDS (createCopy fs path src opts).1 path =
      .ok (containerToDataset (buildContainer src comp)) := by
  simp [createCopy, h, openDS, FS.lookup_set_self]

theorem checksum_replicate_zero (n : Nat) :
    checksum (List.replicate n (0 : Int)) = 0 := by
  have h : (List.replicate n (0 : Int)).foldl (fun acc v => acc + v.natAbs) 0 = 0 := by
    induction n with
    | zero => rfl
    | succ k ih => simpa [List.replicate] using ih
  simp [checksum, h]

theorem range_map_getD (l : List Int) :
    (List.range l.length).map (fun i => l.getD i 0) = l := by
  induction l with
  | nil => rfl
  | cons a t ih =>
    rw [List.length_cons, List.range_succ_eq_map, List.map_cons, List.map_map]
    have h : ((fun i => (a :: t).getD i 0) ∘ Nat.succ) = (fun i => t.getD i 0) := by
      funext i
      simp [List.getD]
    rw [h, ih]
    rfl

/-- A `WriteRaster` whose window is the whole band replaces the stored pixel
array with the buffer. -/
theorem writeWindow_full (w h : Nat) (hw : 0 < w) (data buf : List Int)
    (hd : data.length = w * h) (hb : buf.length = w * h) :
    writeWindow w data 0 0 w h buf = buf := by
  have step : ∀ i ∈ List.range (w * h),
      (if 0 ≤ i % w ∧ i % w < 0 + w ∧ 0 ≤ i / w ∧ i / w < 0 + h
       then buf.getD ((i / w - 0) * w + (i % w - 0)) 0
       else data.getD i 0) = buf.getD i 0 := by
    intro i hi
    rw [List.mem_range] at hi
    have hx : i % w < w := Nat.mod_lt _ hw
    have hy : i / w < h := Nat.div_lt_of_lt_mul (by omega)
    rw [if_pos ⟨Nat.zero_le _, by omega, Nat.zero_le _, by omega⟩]
    simp [Nat.div_add_mod' i w]
  calc writeWindow w data 0 0 w h buf
      = (List.range (w * h)).map (fun i => buf.getD i 0) := by
        unfold writeWindow
        rw [hd]
        exact List.map_congr_left step
    _ = buf := by
        conv_rhs => rw [← range_map_getD buf]
        rw [hb]

/-- A windowed `WriteRaster` leaves every pixel outside the window with its
stored value. -/
theorem writeWindow_outside (w : Nat) (data buf : List Int)
    (xoff yoff xsize ysize p : Nat)
    (hp : ¬ (xoff ≤ p % w ∧ p % w < xoff + xsize ∧
             yoff ≤ p / w ∧ p / w < yoff + ysize)) :
    (writeWindow w data xoff yoff xsize ysize buf).getD p 0 = data.getD p 0 := by
  unfold writeWindow
  by_cases hlen : p < data.length
  · rw [List.getD_eq_getElem?_getD, List.getElem?_map, List.getElem?_range hlen]
    simp [hp, List.getD_eq_getElem?_getD]
  · have h1 : data.length ≤ p := by omega
    rw [List.getD_eq_default, List.getD_eq_default]
    · exact h1
    · simpa using h1

theorem getD_set_of_ne {α : Type} (l : List α) (i j : Nat) (h : i ≠ j)
    (x d : α) : (l.set i x).getD j d = l.getD j d := by
  simp [List.getD_eq_getElem?_getD, List.getElem?_set_ne h]

theorem getD_set_self {α : Type} (l : List α) (i : Nat) (h : i < l.length)
    (x d : α) : (l.set i x).getD i d = x := by
  simp [List.getD_eq_getElem?_getD, List.getElem?_set_self, h]

theorem map_data_zipWith (ms : List BandMeta) (ds : List (List Int))
    (h : ms.length = ds.length) :
    (List.zipWith Band.mk ms ds).map Band.data = ds := by
  induction ms generalizing ds with
  | nil =>
    cases ds with
    | nil => rfl
    | cons d td => simp at h
  | cons m tm ih =>
    cases ds with
    | nil => simp at h
    | cons d td => simp [List.zipWith, ih td (by simpa using h)]

/-- Reading band `i` of an opened container returns the stored pixel array of
component `i` (whenever descriptors and components are in 1:1 correspondence,
as every committed container satisfies). -/
theorem bandAt_containerToDataset (c : Container)
    (h : c.bandMeta.length = c.bandData.length) (i : Nat) :
    (containerToDataset c).bandAt i = c.bandData.getD i [] := by
  unfold Dataset.bandAt containerToDataset
  rw [map_data_zipWith _ _ h]

theorem parseCompression_of_not_mem (s : String)
    (hs : s ∉ acceptedCompressValues) :
    parseCompression s = .error .unsupportedCompression := by
  simp only [acceptedCompressValues, List.mem_cons, List.not_mem_nil, or_false,
    not_or] at hs
  obtain ⟨h1, h2, h3, h4, h5, h6, h7, h8, h9, h10, h11, h12, h13⟩ := hs
  simp [parseCompression, h1, h2, h3, h4, h5, h6, h7, h8, h9, h10, h11, h12, h13]

theorem parseCompression_of_mem (s : String) (hs : s ∈ acceptedCompressValues) :
    ∃ comp, parseCompression s = .ok comp := by
  fin_cases hs <;> exact ⟨_, rfl⟩

/-- Filling a valid band stores exactly the all-constant array sized by the
container's raster dimensions. -/
theorem fillContainer_getD_self (c : Container) (band : Nat) (v : Int)
    (hband : band < c.bandData.length) :
    (fillContainer c band v).bandData.getD band [] =
      List.replicate (c.width * c.height) v := by
  simp only [fillContainer]
  exact getD_set_self _ _ hband _ _

/-- A windowed write on a valid band stores exactly the windowed rewrite of
the previously stored array. -/
theorem writeContainer_getD_self (c : Container)
    (band xoff yoff xsize ysize : Nat) (buf : List Int)
    (hband : band < c.bandData.length) :
    (writeContainer c band xoff yoff xsize ysize buf).bandData.getD band [] =
      writeWindow c.width (c.bandData.getD band []) xoff yoff xsize ysize buf := by
  simp only [writeContainer]
  exact getD_set_self _ _ hband _ _

/-! ## The claims -/

/-- C1: For every supported pixel type and any (multi-band) source dataset,
`CreateCopy` to a GTA container, then `Open` on the result, then reading any
band yields pixel data whose checksum equals the source band's checksum. -/
theorem gta_C1_roundtrip_checksum (fs : FS) (path : String) (src : Dataset)
    (opts : List String) (comp : Compression)
    (h : parseOptions opts = .ok comp) (i : Nat) :
    (openDS (createCopy fs path src opts).1 path).map
        (fun d => checksum (d.bandAt i)) =
      .ok (checksum (src.bandAt i)) := by
  rw [open_createCopy fs path src opts comp h]
  simp only [Except.map]
  unfold Dataset.bandAt
  rw [bands_roundtrip]

/-- Witness for C1 at a concrete dataset, path and empty creation options. -/
theorem gta_C1_witness :
    (openDS (createCopy [] "/vsimem/byte.gta" sampleDS []).1
        "/vsimem/byte.gta").map (fun d => checksum (d.bandAt 0)) =
      .ok (checksum (sampleDS.bandAt 0)) :=
  gta_C1_roundtrip_checksum [] "/vsimem/byte.gta" sampleDS [] .raw rfl 0

/-- C4: For a source with a defined affine geotransform and projection text,
the dataset produced by `CreateCopy` and re-opened reports each of the 6
geotransform components equal to the source's within absolute tolerance 1e-6,
and reports projection text exactly equal to the source's. -/
theorem gta_C4_geotransform_projection (fs : FS) (path : String)
    (src : Dataset) (opts : List String) (comp : Compression)
    (h : parseOptions opts = .ok comp)
    (gt : GeoTransform) (hgt : src.geotransform = some gt) :
    ∃ d, openDS (createCopy fs path src opts).1 path = .ok d ∧
      (∀ i, |d.reportedGT.components.getD i 0 - gt.components.getD i 0| ≤
        1 / 1000000) ∧
      d.projection = src.projection := by
  refine ⟨containerToDataset (buildContainer src comp),
    open_createCopy fs path src opts comp h, ?_, ?_⟩
  · intro i
    have hd : (containerToDataset (buildContainer src comp)).reportedGT = gt := by
      simp [containerToDataset, buildContainer, buildGeoRef, hgt,
        Dataset.reportedGT]
    rw [hd, sub_self, abs_zero]
    norm_num
  · simp [containerToDataset, buildContainer, buildGeoRef, hgt]

/-- Witness for C4 at a concrete source with affine transform `sampleGT`. -/
theorem gta_C4_witness :
    ∃ d, openDS (createCopy [] "/vsimem/byte.gta" sampleDS []).1
        "/vsimem/byte.gta" = .ok d ∧
      (∀ i, |d.reportedGT.components.getD i 0 - sampleGT.components.getD i 0| ≤
        1 / 1000000) ∧
      d.projection = sampleDS.projection :=
  gta_C4_geotransform_projection [] "/vsimem/byte.gta" sampleDS [] .raw rfl
    sampleGT rfl

/-- C5: For a source described purely by ground control points (no affine
transform), the dataset produced by `CreateCopy` and re-opened reports the
default identity geotransform (0,1,0,0,0,1), an empty projection string, a
GCP list of the source's length, and the source's GCP projection string. -/
theorem gta_C5_gcp_fidelity (fs : FS) (path : String) (src : Dataset)
    (opts : List String) (comp : Compression)
    (h : parseOptions opts = .ok comp)
    (hgt : src.geotransform = none) (hg : src.gcps ≠ []) :
    ∃ d, openDS (createCopy fs path src opts).1 path = .ok d ∧
      d.reportedGT = identityGT ∧
      d.projection = "" ∧
      d.gcps.length = src.gcps.length ∧
      d.gcpProjection = src.gcpProjection := by
  refine ⟨containerToDataset (buildContainer src comp),
    open_createCopy fs path src opts comp h, ?_, ?_, ?_, ?_⟩ <;>
    simp [containerToDataset, buildContainer, buildGeoRef, hgt, hg,
      Dataset.reportedGT]

/-- Witness for C5 at a concrete GCP-only source. -/
theorem gta_C5_witness :
    ∃ d, openDS (createCopy [] "/vsimem/gta_3.gta" gcpDS []).1
        "/vsimem/gta_3.gta" = .ok d ∧
      d.reportedGT = identityGT ∧
      d.projection = "" ∧
      d.gcps.length = gcpDS.gcps.length ∧
      d.gcpProjection = gcpDS.gcpProjection :=
  gta_C5_gcp_fidelity [] "/vsimem/gta_3.gta" gcpDS [] .raw rfl rfl
    (by decide)

/-- C6: Every band-metadata property — nodata, minimum and maximum, category
names, offset, scale, unit, description and the color-interpretation value
(excluding the palette-index case) — reads back after `CreateCopy` and
re-`Open` exactly equal to its value on the source band. -/
theorem gta_C6_band_metadata (fs : FS) (path : String) (src : Dataset)
    (opts : List String) (comp : Compression)
    (h : parseOptions opts = .ok comp) (i : Nat)
    (hi : i < src.bands.length)
    (hpal : (src.bands.getD i default).meta.colorInterp ≠ GCI_PaletteIndex) :
    ∃ d, openDS (createCopy fs path src opts).1 path = .ok d ∧
      (d.bands.getD i default).meta.nodata =
        (src.bands.getD i default).meta.nodata ∧
      (d.bands.getD i default).meta.minimum =
        (src.bands.getD i default).meta.minimum ∧
      (d.bands.getD i default).meta.maximum =
        (src.bands.getD i default).meta.maximum ∧
      (d.bands.getD i default).meta.categoryNames =
        (src.bands.getD i default).meta.categoryNames ∧
      (d.bands.getD i default).meta.offset =
        (src.bands.getD i default).meta.offset ∧
      (d.bands.getD i default).meta.scale =
        (src.bands.getD i default).meta.scale ∧
      (d.bands.getD i default).meta.unitType =
        (src.bands.getD i default).meta.unitType ∧
      (d.bands.getD i default).meta.description =
        (src.bands.getD i default).meta.description ∧
      (d.bands.getD i default).meta.colorInterp =
        (src.bands.getD i default).meta.colorInterp := by
  refine ⟨containerToDataset (buildContainer src comp),
    open_createCopy fs path src opts comp h, ?_⟩
  rw [bands_roundtrip]
  exact ⟨rfl, rfl, rfl, rfl, rfl, rfl, rfl, rfl, rfl⟩

/-- Witness for C6 at a concrete source whose band 0 carries the metadata
test's values (nodata 123, min/max 255, categories, offset 2, scale 3, unit,
description, a non-palette color interpretation). -/
theorem gta_C6_witness :
    ∃ d, openDS (createCopy [] "/vsimem/gta_4.gta" sampleDS []).1
        "/vsimem/gta_4.gta" = .ok d ∧
      (d.bands.getD 0 default).meta.nodata =
        (sampleDS.bands.getD 0 default).meta.nodata ∧
      (d.bands.getD 0 default).meta.minimum =
        (sampleDS.bands.getD 0 default).meta.minimum ∧
      (d.bands.getD 0 default).meta.maximum =
        (sampleDS.bands.getD 0 default).meta.maximum ∧
      (d.bands.getD 0 default).meta.categoryNames =
        (sampleDS.bands.getD 0 default).meta.categoryNames ∧
      (d.bands.getD 0 default).meta.offset =
        (sampleDS.bands.getD 0 default).meta.offset ∧
      (d.bands.getD 0 default).meta.scale =
        (sampleDS.bands.getD 0 default).meta.scale ∧
      (d.bands.getD 0 default).meta.unitType =
        (sampleDS.bands.getD 0 default).meta.unitType ∧
      (d.bands.getD 0 default).meta.description =
        (sampleDS.bands.getD 0 default).meta.description ∧
      (d.bands.getD 0 default).meta.colorInterp =
        (sampleDS.bands.getD 0 default).meta.colorInterp :=
  gta_C6_band_metadata [] "/vsimem/gta_4.gta" sampleDS [] .raw rfl 0
    (by decide) (by decide)

/-- C7: For every accepted `COMPRESS` creation-option value (`NONE`, `BZIP2`,
`XZ`, bare `ZLIB`, `ZLIB1`–`ZLIB9`), `CreateCopy` succeeds, and a subsequent
`Open` and band read succeeds and reproduces the source band's checksum. -/
theorem gta_C7_compression_transparency (fs : FS) (path : String)
    (src : Dataset) (opts : List String) (s : String)
    (hs : s ∈ acceptedCompressValues)
    (hopt : compressOptionValue opts = some s) (i : Nat) :
    (∃ c, (createCopy fs path src opts).2 = .ok c) ∧
    (openDS (createCopy fs path src opts).1 path).map
        (fun d => checksum (d.bandAt i)) =
      .ok (checksum (src.bandAt i)) := by
  obtain ⟨comp, hcomp⟩ := parseCompression_of_mem s hs
  have hpo : parseOptions opts = .ok comp := by
    simp [parseOptions, hopt, hcomp]
  constructor
  · exact ⟨buildContainer src comp, by simp [createCopy, hpo]⟩
  · rw [open_createCopy fs path src opts comp hpo]
    simp only [Except.map]
    unfold Dataset.bandAt
    rw [bands_roundtrip]

/-- Witness for C7 at the bare `ZLIB` value (default level). -/
theorem gta_C7_witness :
    (∃ c, (createCopy [] "/vsimem/gta_5.gta" sampleDS
        ["COMPRESS=ZLIB"]).2 = .ok c) ∧
    (openDS (createCopy [] "/vsimem/gta_5.gta" sampleDS
        ["COMPRESS=ZLIB"]).1 "/vsimem/gta_5.gta").map
        (fun d => checksum (d.bandAt 0)) =
      .ok (checksum (sampleDS.bandAt 0)) :=
  gta_C7_compression_transparency [] "/vsimem/gta_5.gta" sampleDS
    ["COMPRESS=ZLIB"] "ZLIB" (by decide) rfl 0

/-- C8: `CreateCopy` with an unrecognized `COMPRESS` value fails with the
distinguishable error `UnsupportedCompression` (not a silently-empty
success) and leaves behind no file at the path that a subsequent `Open`
could read as a container. -/
theorem gta_C8_unsupported_compression (fs : FS) (path : String)
    (src : Dataset) (opts : List String) (s : String)
    (hs : s ∉ acceptedCompressValues)
    (hopt : compressOptionValue opts = some s) :
    (createCopy fs path src opts).2 = .error .unsupportedCompression ∧
    openDS (createCopy fs path src opts).1 path = .error .notFound := by
  have hpo : parseOptions opts = .error .unsupportedCompression := by
    simp [parseOptions, hopt, parseCompression_of_not_mem s hs]
  constructor
  · simp [createCopy, hpo]
  · simp [createCopy, hpo, openDS, FS.lookup_erase_self]

/-- Witness for C8 at the unrecognized value `DEFLATE`. -/
theorem gta_C8_witness :
    (createCopy [] "/vsimem/gta_5.gta" sampleDS ["COMPRESS=DEFLATE"]).2 =
      .error .unsupportedCompression ∧
    openDS (createCopy [] "/vsimem/gta_5.gta" sampleDS
        ["COMPRESS=DEFLATE"]).1 "/vsimem/gta_5.gta" = .error .notFound :=
  gta_C8_unsupported_compression [] "/vsimem/gta_5.gta" sampleDS
    ["COMPRESS=DEFLATE"] "DEFLATE" (by decide) rfl

/-- C9: After `Delete(path)` succeeds, `Open(path)` fails with the not-found
error — and in particular never with `CorruptData` — no orphaned partial
artifacts remain at the path. -/
theorem gta_C9_delete_completeness (fs fs' : FS) (path : String)
    (h : deleteDS fs path = .ok fs') :
    openDS fs' path = .error .notFound ∧
    openDS fs' path ≠ .error .corruptData := by
  have hfs : fs' = fs.erase path := by
    unfold deleteDS at h
    cases hc : fs.lookup path with
    | none => rw [hc] at h; cases h
    | some c =>
      rw [hc] at h
      injection h with h2
      exact h2.symm
  subst hfs
  constructor
  · simp [openDS, FS.lookup_erase_self]
  · simp [openDS, FS.lookup_erase_self]

/-- Witness for C9 at a concrete one-file filesystem. -/
theorem gta_C9_witness :
    openDS (FS.erase [("/vsimem/byte.gta", sampleContainer)]
        "/vsimem/byte.gta") "/vsimem/byte.gta" = .error .notFound ∧
    openDS (FS.erase [("/vsimem/byte.gta", sampleContainer)]
        "/vsimem/byte.gta") "/vsimem/byte.gta" ≠ .error .corruptData :=
  gta_C9_delete_completeness [("/vsimem/byte.gta", sampleContainer)]
    (FS.erase [("/vsimem/byte.gta", sampleContainer)] "/vsimem/byte.gta")
    "/vsimem/byte.gta" rfl

/-- C10: `CreateCopy` to a path already holding a container succeeds and
replaces the previous container entirely: the committed container and the
opened dataset are exactly those determined by the new source and options,
identical to what the same `CreateCopy` produces on an empty filesystem. -/
theorem gta_C10_overwrite_existing (fs : FS) (path : String)
    (old : Container) (hold : fs.lookup path = some old) (src : Dataset)
    (opts : List String) (comp : Compression)
    (h : parseOptions opts = .ok comp) :
    (createCopy fs path src opts).2 = .ok (buildContainer src comp) ∧
    openDS (createCopy fs path src opts).1 path =
      .ok (containerToDataset (buildContainer src comp)) ∧
    openDS (createCopy fs path src opts).1 path =
      openDS (createCopy [] path src opts).1 path := by
  refine ⟨by simp [createCopy, h], open_createCopy _ _ _ _ _ h, ?_⟩
  rw [open_createCopy _ _ _ _ _ h, open_createCopy _ _ _ _ _ h]

/-- Witness for C10: re-copying over an existing container file. -/
theorem gta_C10_witness :
    (createCopy [("/vsimem/gta_5.gta", sampleContainer)] "/vsimem/gta_5.gta"
        gcpDS []).2 = .ok (buildContainer gcpDS .raw) ∧
    openDS (createCopy [("/vsimem/gta_5.gta", sampleContainer)]
        "/vsimem/gta_5.gta" gcpDS []).1 "/vsimem/gta_5.gta" =
      .ok (containerToDataset (buildContainer gcpDS .raw)) ∧
    openDS (createCopy [("/vsimem/gta_5.gta", sampleContainer)]
        "/vsimem/gta_5.gta" gcpDS []).1 "/vsimem/gta_5.gta" =
      openDS (createCopy [] "/vsimem/gta_5.gta" gcpDS []).1
        "/vsimem/gta_5.gta" :=
  gta_C10_overwrite_existing [("/vsimem/gta_5.gta", sampleContainer)]
    "/vsimem/gta_5.gta" sampleContainer rfl gcpDS [] .raw rfl

/-- C2: For an existing container opened read-write, `Fill(band, v)` followed
by close and re-`Open` changes that band's checksum to the checksum of an
all-`v` array of the raster's size (for `v = 0`, checksum 0); a subsequent
read-write session replacing the whole band with new pixel data `buf`, close,
and re-`Open` changes the checksum to the checksum of `buf`. -/
theorem gta_C2_update_in_place (fs : FS) (path : String) (src : Dataset)
    (v : Int) (buf : List Int) (fs1 fs2 fs3 : FS)
    (hw : 0 < src.width)
    (hbands : src.bands ≠ [])
    (hbuf : buf.length = src.width * src.height)
    (h1 : (createCopy fs path src []).1 = fs1)
    (h2 : fillAt fs1 path 0 v = .ok fs2)
    (h3 : writeRasterAt fs2 path 0 0 0 src.width src.height buf = .ok fs3) :
    (openDS fs2 path).map (fun d => checksum (d.bandAt 0)) =
      .ok (checksum (List.replicate (src.width * src.height) v)) ∧
    (v = 0 →
      (openDS fs2 path).map (fun d => checksum (d.bandAt 0)) = .ok 0) ∧
    (openDS fs3 path).map (fun d => checksum (d.bandAt 0)) =
      .ok (checksum buf) := by
  have hc0 : (createCopy fs path src []).1 =
      FS.set fs path (buildContainer src .raw) := rfl
  rw [hc0] at h1
  subst h1
  simp only [fillAt, FS.lookup_set_self] at h2
  injection h2 with h2
  subst h2
  simp only [writeRasterAt, FS.lookup_set_self] at h3
  injection h3 with h3
  subst h3
  have hband0 : 0 < (buildContainer src Compression.raw).bandData.length := by
    simp only [buildContainer, List.length_map]
    exact List.length_pos.mpr hbands
  have hfillband :
      (fillContainer (buildContainer src .raw) 0 v).bandData.getD 0 [] =
        List.replicate (src.width * src.height) v :=
    fillContainer_getD_self _ 0 v hband0
  have hml1 : (fillContainer (buildContainer src .raw) 0 v).bandMeta.length =
      (fillContainer (buildContainer src .raw) 0 v).bandData.length := by
    simp [fillContainer, buildContainer]
  have hband1 :
      0 < (fillContainer (buildContainer src .raw) 0 v).bandData.length := by
    simpa [fillContainer] using hband0
  have hopen2 : openDS (FS.set (FS.set fs path (buildContainer src .raw)) path
        (fillContainer (buildContainer src .raw) 0 v)) path =
      .ok (containerToDataset (fillContainer (buildContainer src .raw) 0 v)) := by
    simp only [openDS, FS.lookup_set_self]
  have part1 : (openDS (FS.set (FS.set fs path (buildContainer src .raw)) path
        (fillContainer (buildContainer src .raw) 0 v)) path).map
        (fun d => checksum (d.bandAt 0)) =
      .ok (checksum (List.replicate (src.width * src.height) v)) := by
    rw [hopen2]
    simp only [Except.map]
    rw [bandAt_containerToDataset _ hml1 0, hfillband]
  refine ⟨part1, ?_, ?_⟩
  · intro hv
    subst hv
    rw [part1, checksum_replicate_zero]
  · have hmlW : (writeContainer (fillContainer (buildContainer src .raw) 0 v)
          0 0 0 src.width src.height buf).bandMeta.length =
        (writeContainer (fillContainer (buildContainer src .raw) 0 v)
          0 0 0 src.width src.height buf).bandData.length := by
      simp [writeContainer, fillContainer, buildContainer]
    have hopen3 : openDS (FS.set
          (FS.set (FS.set fs path (buildContainer src .raw)) path
            (fillContainer (buildContainer src .raw) 0 v)) path
          (writeContainer (fillContainer (buildContainer src .raw) 0 v)
            0 0 0 src.width src.height buf)) path =
        .ok (containerToDataset
          (writeContainer (fillContainer (buildContainer src .raw) 0 v)
            0 0 0 src.width src.height buf)) := by
      simp only [openDS, FS.lookup_set_self]
    rw [hopen3]
    simp only [Except.map]
    rw [bandAt_containerToDataset _ hmlW 0]
    rw [writeContainer_getD_self _ 0 0 0 src.width src.height buf hband1]
    rw [hfillband]
    have hcw : (fillContainer (buildContainer src .raw) 0 v).width = src.width := rfl
    rw [hcw]
    rw [writeWindow_full src.width src.height hw _ buf (by simp) hbuf]

/-- Witness for C2: the concrete fill-then-rewrite session on the sample
dataset's container. -/
theorem gta_C2_witness :
    (openDS [("/vsimem/byte.gta", filledSampleContainer)]
        "/vsimem/byte.gta").map (fun d => checksum (d.bandAt 0)) =
      .ok (checksum (List.replicate (sampleDS.width * sampleDS.height) 0)) ∧
    ((0 : Int) = 0 →
      (openDS [("/vsimem/byte.gta", filledSampleContainer)]
        "/vsimem/byte.gta").map (fun d => checksum (d.bandAt 0)) = .ok 0) ∧
    (openDS [("/vsimem/byte.gta", rewrittenSampleContainer)]
        "/vsimem/byte.gta").map (fun d => checksum (d.bandAt 0)) =
      .ok (checksum [1, 2, 3, 4]) :=
  gta_C2_update_in_place [] "/vsimem/byte.gta" sampleDS 0 [1, 2, 3, 4]
    [("/vsimem/byte.gta", sampleContainer)]
    [("/vsimem/byte.gta", filledSampleContainer)]
    [("/vsimem/byte.gta", rewrittenSampleContainer)]
    (by decide) (by decide) (by decide) rfl rfl rfl

/-- C3: Pixel mutations through the update-in-place path (`Fill` on a band,
or a sub-window `WriteRaster` on a read-write handle) leave the container's
georeferencing record (geotransform/projection/GCPs), its shape, pixel type,
compression spec and all previously stored band descriptors exactly as
originally written; only the targeted band's pixels change, and within that
band only the pixels of the targeted window. -/
theorem gta_C3_mutation_frame (fs : FS) (path : String) (c : Container)
    (band : Nat) (v : Int) (xoff yoff xsize ysize : Nat) (buf : List Int)
    (fsF fsW : FS)
    (hc : fs.lookup path = some c)
    (hband : band < c.bandData.length)
    (hF : fillAt fs path band v = .ok fsF)
    (hW : writeRasterAt fs path band xoff yoff xsize ysize buf = .ok fsW) :
    (∃ cF, fsF.lookup path = some cF ∧
      cF.georef = c.georef ∧
      cF.bandMeta = c.bandMeta ∧
      cF.width = c.width ∧ cF.height = c.height ∧
      cF.dtype = c.dtype ∧ cF.compression = c.compression ∧
      (∀ j, j ≠ band → cF.bandData.getD j [] = c.bandData.getD j [])) ∧
    (∃ cW, fsW.lookup path = some cW ∧
      cW.georef = c.georef ∧
      cW.bandMeta = c.bandMeta ∧
      cW.width = c.width ∧ cW.height = c.height ∧
      cW.dtype = c.dtype ∧ cW.compression = c.compression ∧
      (∀ j, j ≠ band → cW.bandData.getD j [] = c.bandData.getD j []) ∧
      (∀ p, ¬ (xoff ≤ p % c.width ∧ p % c.width < xoff + xsize ∧
               yoff ≤ p / c.width ∧ p / c.width < yoff + ysize) →
        (cW.bandData.getD band []).getD p 0 =
          (c.bandData.getD band []).getD p 0)) := by
  simp only [fillAt, hc] at hF
  injection hF with hF
  subst hF
  simp only [writeRasterAt, hc] at hW
  injection hW with hW
  subst hW
  constructor
  · refine ⟨fillContainer c band v, FS.lookup_set_self _ _ _,
      rfl, rfl, rfl, rfl, rfl, rfl, ?_⟩
    intro j hj
    simp only [fillContainer]
    exact getD_set_of_ne _ band j (Ne.symm hj) _ _
  · refine ⟨writeContainer c band xoff yoff xsize ysize buf,
      FS.lookup_set_self _ _ _, rfl, rfl, rfl, rfl, rfl, rfl, ?_, ?_⟩
    · intro j hj
      simp only [writeContainer]
      exact getD_set_of_ne _ band j (Ne.symm hj) _ _
    · intro p hp
      rw [writeContainer_getD_self _ band xoff yoff xsize ysize buf hband]
      exact writeWindow_outside c.width _ buf xoff yoff xsize ysize p hp

/-- Witness for C3: a fill and a 1×1-window write on the sample container. -/
theorem gta_C3_witness :
    (∃ cF, FS.lookup [("/vsimem/byte.gta", filledSampleContainer)]
        "/vsimem/byte.gta" = some cF ∧
      cF.georef = sampleContainer.georef ∧
      cF.bandMeta = sampleContainer.bandMeta ∧
      cF.width = sampleContainer.width ∧ cF.height = sampleContainer.height ∧
      cF.dtype = sampleContainer.dtype ∧
      cF.compression = sampleContainer.compression ∧
      (∀ j, j ≠ 0 →
        cF.bandData.getD j [] = sampleContainer.bandData.getD j [])) ∧
    (∃ cW, FS.lookup [("/vsimem/byte.gta", windowedSampleContainer)]
        "/vsimem/byte.gta" = some cW ∧
      cW.georef = sampleContainer.georef ∧
      cW.bandMeta = sampleContainer.bandMeta ∧
      cW.width = sampleContainer.width ∧ cW.height = sampleContainer.height ∧
      cW.dtype = sampleContainer.dtype ∧
      cW.compression = sampleContainer.compression ∧
      (∀ j, j ≠ 0 →
        cW.bandData.getD j [] = sampleContainer.bandData.getD j []) ∧
      (∀ p, ¬ (0 ≤ p % sampleContainer.width ∧
               p % sampleContainer.width < 0 + 1 ∧
               0 ≤ p / sampleContainer.width ∧
               p / sampleContainer.width < 0 + 1) →
        (cW.bandData.getD 0 []).getD p 0 =
          (sampleContainer.bandData.getD 0 []).getD p 0)) :=
  gta_C3_mutation_frame [("/vsimem/byte.gta", sampleContainer)]
    "/vsimem/byte.gta" sampleContainer 0 0 0 0 1 1 [9]
    [("/vsimem/byte.gta", filledSampleContainer)]
    [("/vsimem/byte.gta", windowedSampleContainer)]
    rfl (by decide) rfl rfl
